import Mathlib

/-!
Verification of the NextAuth OIDC session-lifecycle logic of this repository.

The definitions below are a shallow embedding of the TypeScript source:

* `jwtCallback` embeds `authOptions.callbacks.jwt` from
  `src/app/api/auth/[...nextauth]/route.ts` (lines 136-193).  The network
  call to the token endpoint is represented by an explicit `FetchOutcome`
  argument (what the `fetch`/`json` pair would produce), and the result
  records how many token-endpoint calls the invocation performed.
* `sessionCallback` embeds `authOptions.callbacks.session` (lines 199-211).
* `createOidcProvider` embeds the provider-construction helper
  (lines 56-94), projected to the fields the verification touches.
* `refreshRequest` embeds the HTTP request literal of the refresh branch
  (lines 162-170).
* `fetchApiDataError` embeds the error-message computation of the non-ok
  branch of `fetchApiData` in `src/app/page.tsx` (lines 52-66).
* `nextAuthSecret` / `startupWarningEmitted` embed the secret fallback and
  the startup warning condition (lines 17-25).

JavaScript truthiness is modelled explicitly: a missing value is `none`,
and where the source tests truthiness of a string (resp. number) the
embedding tests `some s` with `s ≠ ""` (resp. `some n` with `n ≠ 0`).
Timestamps are naturals counting milliseconds since the epoch.
-/

namespace Frontend

/-- The user profile shape produced by the provider's `profile` mapper
(route.ts lines 117-127, types in `src/types/next-auth.d.ts`). -/
structure AuthUser where
  id : String
  name : Option String
  email : Option String
  image : Option String
  providerId : Option String
deriving Repr, DecidableEq

/-- The server-side NextAuth JWT, as augmented in `src/types/next-auth.d.ts`. -/
structure JWT where
  accessToken : Option String
  refreshToken : Option String
  idToken : Option String
  accessTokenExpires : Option Nat
  user : Option AuthUser
  error : Option String
deriving Repr, DecidableEq

/-- The `account` object delivered by NextAuth on initial sign-in; its
`expires_at` is in seconds since the epoch. -/
structure Account where
  access_token : Option String
  refresh_token : Option String
  id_token : Option String
  expires_at : Option Nat
deriving Repr, DecidableEq

/-- The JSON body of a 2xx token-endpoint response, with the fields the
refresh branch consumes (route.ts lines 180-187).  `expires_in` is in
seconds. -/
structure TokenResponse where
  access_token : String
  expires_in : Nat
  refresh_token : Option String
  id_token : Option String
deriving Repr, DecidableEq

/-- The possible outcomes of the `fetch` to the token endpoint:
a 2xx response with a parsed body, a non-2xx response (the source then
throws the parsed error body and catches it), or the fetch/parse itself
throwing. -/
inductive FetchOutcome where
  | ok (resp : TokenResponse)
  | httpError
  | threw
deriving Repr, DecidableEq

/-- Result of one `jwt` callback invocation: the returned token together
with the number of token-endpoint calls performed (0 or 1). -/
structure JwtResult where
  token : JWT
  tokenEndpointCalls : Nat
deriving Repr, DecidableEq

/-- JavaScript truthiness of an optional string: `undefined` and `""` are
falsy. -/
def optStrTruthy : Option String → Bool
  | some s => s ≠ ""
  | none => false

/-- The cache-hit test of route.ts line 149:
`token.accessTokenExpires && Date.now() < token.accessTokenExpires`
(number truthiness: `0` is falsy). -/
def accessTokenFresh (token : JWT) (now : Nat) : Bool :=
  match token.accessTokenExpires with
  | some e => decide (e ≠ 0) && decide (now < e)
  | none => false

/-- Embedding of `authOptions.callbacks.jwt` (route.ts lines 136-193).
`user` and `account` are the optional sign-in inputs; `now` is
`Date.now()`; `fetchResult` is what the token-endpoint call would yield
if performed. -/
def jwtCallback (token : JWT) (user : Option AuthUser) (account : Option Account)
    (now : Nat) (fetchResult : FetchOutcome) : JwtResult :=
  match account, user with
  | some a, some u =>
    { token := { token with
        accessToken := a.access_token
        refreshToken := a.refresh_token
        idToken := a.id_token
        accessTokenExpires :=
          match a.expires_at with
          | some e => if e ≠ 0 then some (e * 1000) else none
          | none => none
        user := some u }
      tokenEndpointCalls := 0 }
  | _, _ =>
    if accessTokenFresh token now then
      { token := token, tokenEndpointCalls := 0 }
    else if !optStrTruthy token.refreshToken then
      { token := { token with error := some "RefreshAccessTokenError" }
        tokenEndpointCalls := 0 }
    else
      match fetchResult with
      | FetchOutcome.ok resp =>
        { token := { token with
            accessToken := some resp.access_token
            accessTokenExpires := some (now + resp.expires_in * 1000)
            refreshToken :=
              match resp.refresh_token with
              | some r => some r
              | none => token.refreshToken
            idToken :=
              match resp.id_token with
              | some i => some i
              | none => token.idToken }
          tokenEndpointCalls := 1 }
      | FetchOutcome.httpError =>
        { token := { token with error := some "RefreshAccessTokenError" }
          tokenEndpointCalls := 1 }
      | FetchOutcome.threw =>
        { token := { token with error := some "RefreshAccessTokenError" }
          tokenEndpointCalls := 1 }

/-- The client-visible session object.  The fields `refreshToken` and
`idToken` are present in the type so that the no-leak property is a
statement about the object rather than about the type: the session the
callback receives from the framework carries neither, and the theorem
shows the callback never introduces them. -/
structure ClientSession where
  user : Option AuthUser
  accessToken : Option String
  error : Option String
  refreshToken : Option String
  idToken : Option String
deriving Repr, DecidableEq

/-- Embedding of `authOptions.callbacks.session` (route.ts lines 199-211):
copy `user` when the token carries one, then copy `accessToken` and
`error` unconditionally. -/
def sessionCallback (session : ClientSession) (token : JWT) : ClientSession :=
  let s := if token.user.isSome then { session with user := token.user } else session
  { s with accessToken := token.accessToken, error := token.error }

/-- The argument record of `createOidcProvider` (route.ts lines 37-48),
projected to the fields the verification touches. -/
structure CustomOidcConfig where
  id : Option String
  name : Option String
  clientId : String
  clientSecret : Option String
  issuer : String
  wellKnown : Option String
deriving Repr, DecidableEq

/-- The provider record assembled by `createOidcProvider` (route.ts lines
57-85), projected to the fields the verification touches. -/
structure OAuthProviderConfig where
  id : String
  name : String
  clientId : String
  issuer : String
  wellKnown : String
  token : String
  userinfo : String
  clientSecret : Option String
deriving Repr, DecidableEq

/-- JavaScript `String.prototype.trim`, modelled as dropping leading and
trailing whitespace characters. -/
def jsTrim (s : String) : String :=
  ⟨((s.data.dropWhile Char.isWhitespace).reverse.dropWhile Char.isWhitespace).reverse⟩

/-- JavaScript `v || d` on an optional string: `undefined` and `""` both
fall back to the default. -/
def jsOrDefault (v : Option String) (d : String) : String :=
  match v with
  | some s => if s = "" then d else s
  | none => d

/-- Embedding of `createOidcProvider` (route.ts lines 56-94).  The client
secret is attached only when `config.clientSecret` is truthy and its trim
is not the empty string (lines 87-91). -/
def createOidcProvider (config : CustomOidcConfig) : OAuthProviderConfig :=
  let providerConfig : OAuthProviderConfig :=
    { id := jsOrDefault config.id "oidc"
      name := jsOrDefault config.name "OIDC"
      clientId := config.clientId
      issuer := config.issuer
      wellKnown := jsOrDefault config.wellKnown
        (config.issuer ++ "/.well-known/openid-configuration")
      token := config.issuer ++ "/connect/token"
      userinfo := config.issuer ++ "/connect/userinfo"
      clientSecret := none }
  match config.clientSecret with
  | some s =>
    if s ≠ "" ∧ jsTrim s ≠ "" then { providerConfig with clientSecret := some s }
    else providerConfig
  | none => providerConfig

/-- The HTTP request issued by the refresh branch (route.ts lines 162-170).
The URL is the template literal of line 162, which concatenates
`process.env.OIDC_ISSUER` and `connect/token` with no separator. -/
structure RefreshRequest where
  url : String
  method : String
  contentType : String
  bodyParams : List (String × String)
deriving Repr, DecidableEq

/-- Embedding of the refresh `fetch` call (route.ts lines 162-170). -/
def refreshRequest (issuerEnv clientId refreshToken : String) : RefreshRequest :=
  { url := issuerEnv ++ "connect/token"
    method := "POST"
    contentType := "application/x-www-form-urlencoded"
    bodyParams :=
      [("client_id", clientId),
       ("grant_type", "refresh_token"),
       ("refresh_token", refreshToken)] }

/-- The error string assigned by `setApiError` in the non-ok branch of
`fetchApiData` (page.tsx lines 52-66): a status-classified message
followed by the response body truncated to its first 100 characters. -/
def fetchApiDataError (status : Nat) (statusText : String) (errorData : String) : String :=
  let errorMessage := "API Error: " ++ toString status ++ " " ++ statusText
  let classified :=
    if status = 401 then errorMessage ++ " - Access token may be expired or invalid"
    else if status = 403 then errorMessage ++ " - Insufficient permissions"
    else errorMessage
  classified ++ ". " ++ errorData.take 100

/-- Substring containment, used to state the message-classification
properties. -/
def containsStr (s sub : String) : Prop :=
  ∃ pre post : String, s = pre ++ sub ++ post

/-- The development fallback value of `NEXTAUTH_SECRET` (route.ts line 17). -/
def defaultDevSecret : String := "your-default-secret-for-dev-only"

/-- Embedding of route.ts line 17:
`process.env.NEXTAUTH_SECRET || "your-default-secret-for-dev-only"`. -/
def nextAuthSecret (envSecret : Option String) : String :=
  match envSecret with
  | some s => if s = "" then defaultDevSecret else s
  | none => defaultDevSecret

/-- Embedding of the startup-warning condition (route.ts lines 20-25): the
warning is printed only when `NODE_ENV` is `development` and the resolved
secret equals the development fallback. -/
def startupWarningEmitted (nodeEnv : String) (envSecret : Option String) : Bool :=
  nodeEnv == "development" && nextAuthSecret envSecret == defaultDevSecret

/-- A sample user profile, used for concrete evaluations. -/
def sampleUser : AuthUser :=
  { id := "u1", name := some "Sam", email := some "sam@example.test"
    image := none, providerId := some "tenant-1" }

/-- The empty token a fresh sign-in starts from. -/
def emptyToken : JWT :=
  { accessToken := none, refreshToken := none, idToken := none
    accessTokenExpires := none, user := none, error := none }

/-- A sample account as delivered by the provider on sign-in, with a
one-hour expiry in seconds since the epoch. -/
def sampleAccount : Account :=
  { access_token := some "A1", refresh_token := some "R1"
    id_token := some "ID1", expires_at := some 3600 }

/-- The provider configuration of the sample `.env` in the README:
issuer `https://localhost:5005` with no trailing slash. -/
def readmeConfig : CustomOidcConfig :=
  { id := some "oidc", name := some "My Custom IDP"
    clientId := "nextjs-client", clientSecret := none
    issuer := "https://localhost:5005", wellKnown := none }

/-- An empty client session, as the framework's default before the
session callback runs carries no token material. -/
def emptySession : ClientSession :=
  { user := none, accessToken := none, error := none
    refreshToken := none, idToken := none }

/-- A token holding every secret field, used to evaluate the session
projection on a concrete input. -/
def tokenWithSecrets : JWT :=
  { accessToken := some "A1", refreshToken := some "R1", idToken := some "ID1"
    accessTokenExpires := some 1000, user := some sampleUser, error := none }

/-- A token whose access token expired (expiry 100) and that stores no
refresh token. -/
def staleTokenNoRefresh : JWT :=
  { accessToken := some "A1", refreshToken := none, idToken := some "ID1"
    accessTokenExpires := some 100, user := some sampleUser, error := none }

/-- A token whose access token expired (expiry 100) and that stores a
refresh token. -/
def staleTokenWithRefresh : JWT :=
  { accessToken := some "A1", refreshToken := some "R1", idToken := some "ID1"
    accessTokenExpires := some 100, user := some sampleUser, error := none }

/-- A token that is still fresh at time 50 (expiry 100). -/
def freshToken : JWT :=
  { accessToken := some "A1", refreshToken := some "R1", idToken := some "ID1"
    accessTokenExpires := some 100, user := some sampleUser, error := none }

/-- A successful refresh response that rotates neither the refresh token
nor the id token. -/
def resp1 : TokenResponse :=
  { access_token := "A2", expires_in := 3600, refresh_token := none, id_token := none }

/-- C1: for every input JWT, the session produced by the session callback
carries the token's `accessToken` and `error` verbatim (absence meaning no
error), carries the token's `user` whenever the token has one, and —
starting from a framework session that carries no `refreshToken`/`idToken`
— never contains a `refreshToken` or `idToken`, regardless of whether the
token carries them. -/
theorem session_projection_no_refresh_token (session : ClientSession) (token : JWT)
    (hr : session.refreshToken = none) (hi : session.idToken = none) :
    (sessionCallback session token).refreshToken = none ∧
    (sessionCallback session token).idToken = none ∧
    (sessionCallback session token).accessToken = token.accessToken ∧
    (sessionCallback session token).error = token.error ∧
    ∀ u, token.user = some u → (sessionCallback session token).user = some u := by
  cases htu : token.user <;> simp [sessionCallback, hr, hi, htu]

/-- Witness for C1: the projection of a token carrying all secret fields
leaks neither `refreshToken` nor `idToken`. -/
theorem session_projection_no_refresh_token_witness :
    (sessionCallback emptySession tokenWithSecrets).refreshToken = none ∧
    (sessionCallback emptySession tokenWithSecrets).idToken = none ∧
    (sessionCallback emptySession tokenWithSecrets).accessToken = tokenWithSecrets.accessToken ∧
    (sessionCallback emptySession tokenWithSecrets).error = tokenWithSecrets.error ∧
    ∀ u, tokenWithSecrets.user = some u →
      (sessionCallback emptySession tokenWithSecrets).user = some u :=
  session_projection_no_refresh_token emptySession tokenWithSecrets rfl rfl

/-- C2: when the jwt callback runs outside initial sign-in and the stored
expiry lies strictly in the future, the callback returns the token
unchanged and performs no token-endpoint call. -/
theorem jwt_cache_hit (token : JWT) (now e : Nat) (fr : FetchOutcome)
    (he : token.accessTokenExpires = some e) (hnow : now < e) :
    jwtCallback token none none now fr = { token := token, tokenEndpointCalls := 0 } := by
  have h0 : e ≠ 0 := Nat.pos_iff_ne_zero.mp (Nat.lt_of_le_of_lt (Nat.zero_le now) hnow)
  simp [jwtCallback, accessTokenFresh, he, h0, hnow]

/-- Witness for C2: a read at time 50 against expiry 100 returns the prior
token with zero token-endpoint calls. -/
theorem jwt_cache_hit_witness :
    jwtCallback freshToken none none 50 FetchOutcome.threw =
      { token := freshToken, tokenEndpointCalls := 0 } :=
  jwt_cache_hit freshToken 50 100 FetchOutcome.threw rfl (by decide)

/-- C3: when the access token is not fresh and either no refresh token is
stored, or the token endpoint answers non-2xx, or the request throws, the
callback returns the prior token with only `error` set to
`RefreshAccessTokenError`; totality of `jwtCallback` models that no
exception escapes the callback. -/
theorem jwt_refresh_failure_sets_error (token : JWT) (now : Nat) (fr : FetchOutcome)
    (hstale : accessTokenFresh token now = false)
    (hfail : optStrTruthy token.refreshToken = false ∨
      fr = FetchOutcome.httpError ∨ fr = FetchOutcome.threw) :
    (jwtCallback token none none now fr).token =
      { token with error := some "RefreshAccessTokenError" } := by
  rcases hfail with h | h | h
  · simp [jwtCallback, hstale, h]
  · subst h
    by_cases hrt : optStrTruthy token.refreshToken <;> simp [jwtCallback, hstale, hrt]
  · subst h
    by_cases hrt : optStrTruthy token.refreshToken <;> simp [jwtCallback, hstale, hrt]

/-- Witness for C3: an expired token with no stored refresh token comes
back unchanged except for the error flag. -/
theorem jwt_refresh_failure_sets_error_witness :
    (jwtCallback staleTokenNoRefresh none none 200 FetchOutcome.threw).token =
      { staleTokenNoRefresh with error := some "RefreshAccessTokenError" } :=
  jwt_refresh_failure_sets_error staleTokenNoRefresh 200 FetchOutcome.threw
    (by decide) (Or.inl rfl)

/-- C4: a successful refresh overwrites `accessToken` with the response's
`access_token` and `accessTokenExpires` with `now + expires_in * 1000`,
adopts a response `refresh_token`/`id_token` when supplied, and otherwise
retains the stored values. -/
theorem jwt_refresh_success_updates (token : JWT) (now : Nat) (resp : TokenResponse)
    (hstale : accessTokenFresh token now = false)
    (hrt : optStrTruthy token.refreshToken = true) :
    (jwtCallback token none none now (FetchOutcome.ok resp)).token.accessToken =
      some resp.access_token ∧
    (jwtCallback token none none now (FetchOutcome.ok resp)).token.accessTokenExpires =
      some (now + resp.expires_in * 1000) ∧
    (∀ r, resp.refresh_token = some r →
      (jwtCallback token none none now (FetchOutcome.ok resp)).token.refreshToken = some r) ∧
    (resp.refresh_token = none →
      (jwtCallback token none none now (FetchOutcome.ok resp)).token.refreshToken =
        token.refreshToken) ∧
    (∀ i, resp.id_token = some i →
      (jwtCallback token none none now (FetchOutcome.ok resp)).token.idToken = some i) ∧
    (resp.id_token = none →
      (jwtCallback token none none now (FetchOutcome.ok resp)).token.idToken =
        token.idToken) := by
  refine ⟨?_, ?_, ?_, ?_, ?_, ?_⟩
  · simp [jwtCallback, hstale, hrt]
  · simp [jwtCallback, hstale, hrt]
  · intro r h
    simp [jwtCallback, hstale, hrt, h]
  · intro h
    simp [jwtCallback, hstale, hrt, h]
  · intro i h
    simp [jwtCallback, hstale, hrt, h]
  · intro h
    simp [jwtCallback, hstale, hrt, h]

/-- Witness for C4: the spec's scenario — a read past expiry with response
`{access_token := A2, expires_in := 3600}` and no rotated refresh token
yields `A2`, expiry `now + 3600000`, and the retained refresh token. -/
theorem jwt_refresh_success_updates_witness :
    (jwtCallback staleTokenWithRefresh none none 200 (FetchOutcome.ok resp1)).token.accessToken =
      some "A2" ∧
    (jwtCallback staleTokenWithRefresh none none 200 (FetchOutcome.ok resp1)).token.accessTokenExpires =
      some (200 + 3600 * 1000) ∧
    (jwtCallback staleTokenWithRefresh none none 200 (FetchOutcome.ok resp1)).token.refreshToken =
      some "R1" := by
  have h := jwt_refresh_success_updates staleTokenWithRefresh 200 resp1 (by decide) (by decide)
  exact ⟨h.1, h.2.1, h.2.2.2.1 rfl⟩

/-- A sign-in account whose `expires_at` is the (degenerate) epoch value 0. -/
def zeroExpiryAccount : Account := { sampleAccount with expires_at := some 0 }

/-- A sign-in account that omits `expires_at` entirely. -/
def noExpiryAccount : Account :=
  { access_token := some "A1", refresh_token := some "R1"
    id_token := some "ID1", expires_at := none }

/-- A token with no stored expiry and no stored refresh token. -/
def noRefreshNoExpiryToken : JWT :=
  { emptyToken with accessToken := some "A1", user := some sampleUser }

/-- Counterexample for C5: the source guards the expiry conversion with
number truthiness (`account.expires_at ? ... : undefined`), so a present
but zero `expires_at` yields an undefined `accessTokenExpires`, not
`0 * 1000`. -/
theorem jwt_signin_zero_expiry_cex :
    zeroExpiryAccount.expires_at = some 0 ∧
    (jwtCallback emptyToken (some sampleUser) (some zeroExpiryAccount) 0
      FetchOutcome.threw).token.accessTokenExpires ≠ some (0 * 1000) :=
  ⟨rfl, by decide⟩

/-- C5 (amended): on initial sign-in the token's `accessToken`,
`refreshToken`, `idToken` and `user` are unconditionally overwritten from
the account and user inputs, and `accessTokenExpires` is set to
`expires_at * 1000` when `expires_at` is present and nonzero, and left
undefined when it is absent or zero. -/
theorem jwt_initial_signin_overwrites (token : JWT) (a : Account) (u : AuthUser)
    (now : Nat) (fr : FetchOutcome) :
    (jwtCallback token (some u) (some a) now fr).token.accessToken = a.access_token ∧
    (jwtCallback token (some u) (some a) now fr).token.refreshToken = a.refresh_token ∧
    (jwtCallback token (some u) (some a) now fr).token.idToken = a.id_token ∧
    (jwtCallback token (some u) (some a) now fr).token.user = some u ∧
    (∀ e, a.expires_at = some e → e ≠ 0 →
      (jwtCallback token (some u) (some a) now fr).token.accessTokenExpires =
        some (e * 1000)) ∧
    (a.expires_at = none ∨ a.expires_at = some 0 →
      (jwtCallback token (some u) (some a) now fr).token.accessTokenExpires = none) := by
  refine ⟨rfl, rfl, rfl, rfl, ?_, ?_⟩
  · intro e he hne
    simp [jwtCallback, he, hne]
  · rintro (h | h) <;> simp [jwtCallback, h]

/-- Witness for C5: the spec's scenario — sign-in with
`expires_at = 3600` and `access_token = A1` yields expiry `3600 * 1000`
and access token `A1`. -/
theorem jwt_initial_signin_overwrites_witness :
    (jwtCallback emptyToken (some sampleUser) (some sampleAccount) 5
      FetchOutcome.threw).token.accessToken = some "A1" ∧
    (jwtCallback emptyToken (some sampleUser) (some sampleAccount) 5
      FetchOutcome.threw).token.accessTokenExpires = some (3600 * 1000) := by
  have h := jwt_initial_signin_overwrites emptyToken sampleAccount sampleUser 5
    FetchOutcome.threw
  exact ⟨h.1, h.2.2.2.2.1 3600 rfl (by decide)⟩

/-- C6: with the README's issuer (`https://localhost:5005`, no trailing
slash) the refresh branch POSTs to `https://localhost:5005connect/token`
— the template literal of route.ts line 162 inserts no separator — which
is not the `<issuer>/connect/token` endpoint configured for the code
exchange; method, content type and body otherwise match the claim. -/
theorem refresh_url_mismatch :
    (refreshRequest "https://localhost:5005" "nextjs-client" "R1").url =
      "https://localhost:5005connect/token" ∧
    (createOidcProvider readmeConfig).token = "https://localhost:5005/connect/token" ∧
    (refreshRequest "https://localhost:5005" "nextjs-client" "R1").url ≠
      (createOidcProvider readmeConfig).token ∧
    (refreshRequest "https://localhost:5005" "nextjs-client" "R1").method = "POST" ∧
    (refreshRequest "https://localhost:5005" "nextjs-client" "R1").contentType =
      "application/x-www-form-urlencoded" ∧
    (refreshRequest "https://localhost:5005" "nextjs-client" "R1").bodyParams =
      [("client_id", "nextjs-client"), ("grant_type", "refresh_token"),
       ("refresh_token", "R1")] :=
  ⟨by decide, by decide, by decide, rfl, rfl, rfl⟩

/-- A configured secret that survives trimming. -/
def secretConfig : CustomOidcConfig := { readmeConfig with clientSecret := some "s3cr3t" }

/-- A whitespace-only configured secret. -/
def whitespaceSecretConfig : CustomOidcConfig :=
  { readmeConfig with clientSecret := some "   " }

/-- C7: the provider record carries a `clientSecret` exactly when the
configured secret is present and non-empty after trimming; it is then the
configured value verbatim, and the field is never the empty string. -/
theorem createOidcProvider_clientSecret_iff (config : CustomOidcConfig) :
    ((createOidcProvider config).clientSecret.isSome ↔
      ∃ s, config.clientSecret = some s ∧ jsTrim s ≠ "") ∧
    (createOidcProvider config).clientSecret ≠ some "" ∧
    ∀ s, config.clientSecret = some s → jsTrim s ≠ "" →
      (createOidcProvider config).clientSecret = some s := by
  have htrim : jsTrim "" = "" := rfl
  cases hcs : config.clientSecret with
  | none => simp [createOidcProvider, hcs]
  | some s =>
    by_cases h1 : s = ""
    · subst h1
      simp [createOidcProvider, hcs, htrim]
    · by_cases h2 : jsTrim s = ""
      · simp [createOidcProvider, hcs, h1, h2]
      · simp [createOidcProvider, hcs, h1, h2]

/-- Witness for C7: a real secret is forwarded verbatim; a
whitespace-only secret never becomes an empty-string field. -/
theorem createOidcProvider_clientSecret_iff_witness :
    (createOidcProvider secretConfig).clientSecret = some "s3cr3t" ∧
    (createOidcProvider whitespaceSecretConfig).clientSecret ≠ some "" :=
  ⟨(createOidcProvider_clientSecret_iff secretConfig).2.2 "s3cr3t" rfl (by decide),
   (createOidcProvider_clientSecret_iff whitespaceSecretConfig).2.1⟩

/-- Containment helper: a needle sitting between `x` and `y ++ z` is a
substring. -/
theorem containsStr_mid (x needle y z : String) :
    containsStr (((x ++ needle) ++ y) ++ z) needle :=
  ⟨x, y ++ z, String.append_assoc (x ++ needle) y z⟩

/-- Containment helper for a message of the shape
`((em ++ lit) ++ tail1) ++ tail2` whose literal splits as
`litL ++ needle`. -/
theorem containsStr_message (em lit litL needle tail1 tail2 : String)
    (h : lit = litL ++ needle) :
    containsStr (((em ++ lit) ++ tail1) ++ tail2) needle := by
  subst h
  rw [← String.append_assoc em litL needle]
  exact containsStr_mid (em ++ litL) needle tail1 tail2

/-- C8: the message assigned on a non-2xx API response contains
`expired or invalid` at 401, contains `Insufficient permissions` at 403,
is the generic HTTP error message otherwise, and always ends with the
response body truncated to its first 100 characters. -/
theorem fetchApiData_error_classification (status : Nat) (statusText errorData : String) :
    (status = 401 → containsStr (fetchApiDataError status statusText errorData)
      "expired or invalid") ∧
    (status = 403 → containsStr (fetchApiDataError status statusText errorData)
      "Insufficient permissions") ∧
    (status ≠ 401 → status ≠ 403 →
      fetchApiDataError status statusText errorData =
        "API Error: " ++ toString status ++ " " ++ statusText ++ ". " ++
          errorData.take 100) ∧
    ∃ pre : String, fetchApiDataError status statusText errorData =
      pre ++ errorData.take 100 := by
  refine ⟨?_, ?_, ?_, ?_⟩
  · intro h
    subst h
    exact containsStr_message ("API Error: " ++ toString (401 : Nat) ++ " " ++ statusText)
      " - Access token may be expired or invalid" " - Access token may be "
      "expired or invalid" ". " (errorData.take 100) rfl
  · intro h
    subst h
    exact containsStr_message ("API Error: " ++ toString (403 : Nat) ++ " " ++ statusText)
      " - Insufficient permissions" " - " "Insufficient permissions" ". "
      (errorData.take 100) rfl
  · intro h1 h2
    simp [fetchApiDataError, h1, h2]
  · exact ⟨_, rfl⟩

/-- Witness for C8: a 401 with statusText `Unauthorized` and body `body`
produces a message containing `expired or invalid`. -/
theorem fetchApiData_error_classification_witness :
    containsStr (fetchApiDataError 401 "Unauthorized" "body") "expired or invalid" :=
  (fetchApiData_error_classification 401 "Unauthorized" "body").1 rfl

/-- Counterexample for C9: with `NODE_ENV = production` and the secret
unset, the development fallback is in use yet no startup warning is
emitted — the guard at route.ts line 20 requires
`NODE_ENV === 'development'`. -/
theorem startup_warning_production_cex :
    nextAuthSecret none = defaultDevSecret ∧
    startupWarningEmitted "production" none = false :=
  ⟨rfl, by decide⟩

/-- C9 (amended): the startup warning fires exactly when `NODE_ENV` is
`development` and the resolved secret equals the development fallback; in
any other environment, production included, no warning is emitted even
when the fallback is in use. -/
theorem startup_warning_dev_only (nodeEnv : String) (envSecret : Option String) :
    (startupWarningEmitted "development" envSecret = true ↔
      nextAuthSecret envSecret = defaultDevSecret) ∧
    (nodeEnv ≠ "development" → startupWarningEmitted nodeEnv envSecret = false) := by
  constructor
  · simp [startupWarningEmitted]
  · intro h
    simp [startupWarningEmitted, h]

/-- Witness for C9: in the `test` environment, no warning fires even with
the secret unset. -/
theorem startup_warning_dev_only_witness :
    (startupWarningEmitted "development" none = true ↔
      nextAuthSecret none = defaultDevSecret) ∧
    startupWarningEmitted "test" none = false :=
  ⟨(startup_warning_dev_only "test" none).1,
   (startup_warning_dev_only "test" none).2 (by decide)⟩

/-- C10: a sign-in whose account omits `expires_at` leaves
`accessTokenExpires` undefined, and every later invocation on such a
token bypasses the cache-hit branch: with no stored refresh token it
returns the error-flagged token without calling the endpoint, and with a
stored refresh token it performs the refresh call — at any time,
including immediately after sign-in. -/
theorem jwt_missing_expiry_no_cache_hit (t : JWT) (a : Account) (u : AuthUser)
    (now : Nat) (fr : FetchOutcome) (hea : a.expires_at = none) :
    (jwtCallback t (some u) (some a) now fr).token.accessTokenExpires = none ∧
    ∀ (token : JWT) (now2 : Nat) (fr2 : FetchOutcome),
      token.accessTokenExpires = none →
      (optStrTruthy token.refreshToken = false →
        (jwtCallback token none none now2 fr2).token.error =
          some "RefreshAccessTokenError" ∧
        (jwtCallback token none none now2 fr2).tokenEndpointCalls = 0) ∧
      (optStrTruthy token.refreshToken = true →
        (jwtCallback token none none now2 fr2).tokenEndpointCalls = 1) := by
  constructor
  · simp [jwtCallback, hea]
  · intro token now2 fr2 hte
    have hfresh : accessTokenFresh token now2 = false := by
      simp [accessTokenFresh, hte]
    constructor
    · intro hrt
      simp [jwtCallback, hfresh, hrt]
    · intro hrt
      cases fr2 <;> simp [jwtCallback, hfresh, hrt]

/-- Witness for C10: a sign-in without `expires_at` stores no expiry, and
an immediate follow-up read with no stored refresh token is flagged with
`RefreshAccessTokenError`. -/
theorem jwt_missing_expiry_no_cache_hit_witness :
    (jwtCallback emptyToken (some sampleUser) (some noExpiryAccount) 0
      FetchOutcome.threw).token.accessTokenExpires = none ∧
    (jwtCallback noRefreshNoExpiryToken none none 1 FetchOutcome.threw).token.error =
      some "RefreshAccessTokenError" := by
  have h := jwt_missing_expiry_no_cache_hit emptyToken noExpiryAccount sampleUser 0
    FetchOutcome.threw rfl
  exact ⟨h.1, ((h.2 noRefreshNoExpiryToken 1 FetchOutcome.threw rfl).1 rfl).1⟩

end Frontend
